import Mathlib

/-!
# Currency-rate notifier: broker consumers and rate fetchers

A shallow embedding of

* `pkg/broker/transport/consumer.go`            (namespace `Transport`)
* `currency-rate/internal/broker/user/consumer.go` (namespace `User`)
* `rate/fetchers/currency_beacon.go`            (namespace `Fetchers`)
* `rate/fetcher.go`                             (namespace `NBU`)

Go code with side effects is embedded as state passing over a `World`:
the log written through `slog`, the HTTP requests issued so far, the scripted
answers of the network, the clock, and a `heap` of type `σ` holding the
state of every object the embedded code does not own (handlers, listeners,
the next fetcher of a chain).  Go's `(value, error)` results are pairs whose
second component is `Option GoError` (`none` is `nil`).

Calls of library functions (`json`, `html`, `css`, `net/http`) are taken as
parameters, collected in `Lib`.  Mutexes are not modelled: every function is
embedded as it runs on one goroutine.
-/

set_option linter.dupNamespace false

namespace GenesisKMA

/-! ## Errors, log, world -/

/-- Go `error` values: a plain message (`fmt.Errorf` without `%w`, or an error
of a library) or a message wrapping an inner error (`fmt.Errorf("ctx: %w", err)`). -/
inductive GoError where
  | errorf (msg : String)
  | wrap (ctx : String) (inner : GoError)
  deriving DecidableEq, Repr

/-- The `Error()` text of an error. -/
def GoError.Error : GoError → String
  | .errorf m => m
  | .wrap c e => c ++ ": " ++ e.Error

/-- Go `errors.Unwrap`. -/
def GoError.Unwrap : GoError → Option GoError
  | .errorf _ => none
  | .wrap _ e => some e

/-- One `slog` record: level, message and the value of the `"error"`
attribute when the call has one (the other attributes are not kept). -/
structure LogEntry where
  level : String
  msg : String
  err : Option GoError
  deriving DecidableEq, Repr

/-- The part of `time.Time` the code reads. -/
structure Time where
  Year : Nat
  Month : Nat
  Day : Nat
  Nanos : Nat
  deriving DecidableEq, Repr

/-- The zero value `time.Time{}`. -/
def Time.zero : Time := ⟨1, 1, 1, 0⟩

/-- The part of `http.Response` the code reads. -/
structure Response where
  StatusCode : Nat
  Status : String
  Body : String
  deriving DecidableEq, Repr

/-- The world the embedded code runs in.  `http n url` is the answer the
network gives to a request for `url` when `n` requests were issued before;
`clock n` is what `time.Now()` returns on its `n`-th reading. -/
structure World (σ : Type) where
  heap : σ
  logs : List LogEntry
  requests : List String
  http : Nat → String → Except GoError Response
  clockReads : Nat
  clock : Nat → Time

/-- Go `context.Context` as the code builds it: the timeout it carries, if any. -/
structure Context where
  timeout : Option Nat
  deriving DecidableEq, Repr

/-- Go `context.Background()`. -/
def Context.Background : Context := ⟨none⟩

/-- Go `context.WithTimeout(parent, d)`. -/
def Context.WithTimeout (_parent : Context) (d : Nat) : Context := ⟨some d⟩

section Effects
variable {σ : Type}

/-- A call of `slog.Debug/Info/Error`. -/
def slog (w : World σ) (level msg : String) (err : Option GoError) : World σ :=
  { w with logs := w.logs ++ [⟨level, msg, err⟩] }

/-- Go `http.DefaultClient.Do(req.WithContext(ctx))`: the request is recorded and
answered by the script of the world. -/
def httpDo (url : String) (_ctx : Context) (w : World σ) :
    Except GoError Response × World σ :=
  (w.http w.requests.length url, { w with requests := w.requests ++ [url] })

/-- Go `time.Now()`. -/
def timeNow (w : World σ) : Time × World σ :=
  (w.clock w.clockReads, { w with clockReads := w.clockReads + 1 })

end Effects

/-! ## Data of the repository declared outside the embedded files -/

/-- Modelled from the spec: the struct `Rate` of package `rate` is not among
the sources; its fields are those the fetchers set (currency pair, value,
observation time).  The `float32` value is a rational number: every finite
`float32` is one, and the code only stores and returns it. -/
structure Rate where
  CurrencyFrom : String
  CurrencyTo : String
  Rate : ℚ
  Time : Time
  deriving DecidableEq

/-- The zero value `rate.Rate{}`. -/
def emptyRate : Rate := ⟨"", "", 0, Time.zero⟩

/-- Modelled from the spec: the event-kind part of `subscribeEvent`
("a JSON object with an event-kind string field"). -/
structure eventInfo where
  Type_ : String
  deriving DecidableEq, Repr

/-- Modelled from the spec: the data part of `subscribeEvent` ("a nested data
object containing an email string field"). -/
structure eventData where
  Email : String
  deriving DecidableEq, Repr

/-- Modelled from the spec: the struct `subscribeEvent` of package `user` is
not among the sources; the code reads `Event.Type` and `Data.Email`. -/
structure subscribeEvent where
  Event : eventInfo
  Data : eventData
  deriving DecidableEq, Repr

/-- The zero value `subscribeEvent{}`. -/
def subscribeEvent.empty : subscribeEvent := ⟨⟨""⟩, ⟨""⟩⟩

/-- The constants of package `user` declared outside `consumer.go`. -/
structure Consts where
  subTimeout : Nat
  compensateSubscribedEventType : String
  compensateUnsubscribedEventType : String

/-- The library calls the code makes, as functions of their inputs:
* `jsonUnmarshalEvent b`: `json.Unmarshal(b, &event)` for a `subscribeEvent`;
* `newRequest url`: the error of `http.NewRequest(http.MethodGet, url, nil)`;
* `htmlSelect body`: `html.Parse(body)` followed by `sel.Select(node)` for the
  selector `cssSelector`; each selected node is given by the `Data` of its
  `FirstChild`, `none` when `FirstChild` is `nil`;
* `decodeRates body`: `json.NewDecoder(body).Decode(&data)` for
  `struct { Rates map[string]float32 }`, the map as a lookup function;
* `decodeNBU body`: the same for `[]struct { Rate float32 }`, each element by
  its `Rate`. -/
structure Lib where
  jsonUnmarshalEvent : List Nat → Except GoError subscribeEvent
  newRequest : String → Option GoError
  htmlSelect : String → Except GoError (List (Option String))
  decodeRates : String → Except GoError (String → Option ℚ)
  decodeNBU : String → Except GoError (List ℚ)

/-! ## `pkg/broker/transport/consumer.go` -/

namespace Transport

/-- Go `type Listener func([]byte) error`. -/
abbrev Listener (σ : Type) := List Nat → World σ → Option GoError × World σ

/-- Go `Close()` of an `amqp.Channel` or an `amqp.Connection`. -/
abbrev Closer (σ : Type) := World σ → Option GoError × World σ

/-- Go `amqp.Delivery`, the part the code reads. -/
structure Delivery where
  Body : List Nat
  deriving DecidableEq, Repr

/-- Go `type Consumer struct`; `messages` is read by `Listen` only. -/
structure Consumer (σ : Type) where
  QueueName : String
  conn : Closer σ
  channel : Closer σ
  listeners : List (Listener σ)

/-- One call `listener(msg.Body)` made by `deliverMessage`: the position of
the listener in `c.listeners`, the argument, and what the call returned. -/
structure Invocation where
  listener : Nat
  arg : List Nat
  err : Option GoError
  deriving DecidableEq, Repr

variable {σ : Type}

/-- Go `Consumer.Subscribe`. -/
def Consumer.Subscribe (c : Consumer σ) (f : Listener σ) (w : World σ) :
    Consumer σ × World σ :=
  let w1 := slog w "INFO" "adding subscriber" none
  ({ c with listeners := c.listeners ++ [f] }, w1)

/-- The body of the `for _, listener := range c.listeners` loop. -/
def deliverStep (body : List Nat) (listener : Listener σ) (w : World σ) : World σ :=
  match (listener body w).1 with
  | some err => slog (listener body w).2 "ERROR" "error delivering message" (some err)
  | none => (listener body w).2

/-- The loop of `deliverMessage` from position `i` on, with the calls it makes. -/
def deliverLoop (body : List Nat) :
    Nat → List (Listener σ) → World σ → World σ × List Invocation
  | _, [], w => (w, [])
  | i, listener :: rest, w =>
    let err := (listener body w).1
    let w1 := deliverStep body listener w
    let r := deliverLoop body (i + 1) rest w1
    (r.1, ⟨i, body, err⟩ :: r.2)

/-- Go `Consumer.deliverMessage`, with the list of listener calls it made. -/
def Consumer.deliverMessageTraced (c : Consumer σ) (msg : Delivery) (w : World σ) :
    World σ × List Invocation :=
  deliverLoop msg.Body 0 c.listeners w

/-- Go `Consumer.deliverMessage`. -/
def Consumer.deliverMessage (c : Consumer σ) (msg : Delivery) (w : World σ) : World σ :=
  (c.deliverMessageTraced msg w).1

/-- Registering the listeners `fs` one after the other. -/
def subscribeAll (c : Consumer σ) : List (Listener σ) → World σ → Consumer σ × World σ
  | [], w => (c, w)
  | f :: fs, w => subscribeAll (c.Subscribe f w).1 fs (c.Subscribe f w).2

/-- Modelled from the spec: `logAndWrap` of package `transport` is not among
the sources; the spec says of `Close` that the error is returned "wrapped with
context of which resource failed", and the name says it is logged. -/
def logAndWrap (msg : String) (err : GoError) (w : World σ) : GoError × World σ :=
  (GoError.wrap msg err, slog w "ERROR" msg (some err))

/-- Go `Consumer.Close`, with the names of the resources whose `Close` it called. -/
def Consumer.CloseTraced (c : Consumer σ) (w : World σ) :
    (Option GoError × World σ) × List String :=
  let w1 := slog w "INFO" "closing consumer" none
  match c.channel w1 with
  | (some err, w2) =>
    let r := logAndWrap "closing channel" err w2
    ((some r.1, r.2), ["channel"])
  | (none, w2) =>
    match c.conn w2 with
    | (some err, w3) =>
      let r := logAndWrap "closing connection" err w3
      ((some r.1, r.2), ["channel", "connection"])
    | (none, w3) => ((none, w3), ["channel", "connection"])

/-- Go `Consumer.Close`. -/
def Consumer.Close (c : Consumer σ) (w : World σ) : Option GoError × World σ :=
  (c.CloseTraced w).1

end Transport

/-! ## `currency-rate/internal/broker/user/consumer.go` -/

namespace User

/-- Go `type Handler func(ctx context.Context, email string) error`. -/
abbrev Handler (σ : Type) := Context → String → World σ → Option GoError × World σ

/-- Go `type Consumer struct`; `stopped` says whether `stopSignal` is closed. -/
structure Consumer (σ : Type) where
  consumer : Transport.Consumer σ
  stopped : Bool

variable {σ : Type}

/-- Go `Consumer.unmarshal`. -/
def unmarshal (lib : Lib) (b : List Nat) : subscribeEvent × Option GoError :=
  match lib.jsonUnmarshalEvent b with
  | .error err => (subscribeEvent.empty, some (GoError.wrap "unmarshalling event" err))
  | .ok event => (event, none)

/-- The closure returned by `Consumer.handleWithEvent`, with the list of the
e-mail addresses the handler `f` was called with. -/
def handleWithEventTraced (lib : Lib) (k : Consts) (eventName : String) (f : Handler σ)
    (b : List Nat) (w : World σ) : (Option GoError × World σ) × List String :=
  let w1 := slog w "DEBUG" "received message" none
  let ctx := Context.WithTimeout Context.Background k.subTimeout
  match unmarshal lib b with
  | (_, some err) => ((some err, w1), [])
  | (event, none) =>
    if event.Event.Type_ ≠ eventName then
      ((none, w1), [])
    else
      let w2 := slog w1 "INFO" "delivering message" none
      (f ctx event.Data.Email w2, [event.Data.Email])

/-- Go `Consumer.handleWithEvent`: the listener it builds. -/
def handleWithEvent (lib : Lib) (k : Consts) (eventName : String) (f : Handler σ) :
    Transport.Listener σ :=
  fun b w => (handleWithEventTraced lib k eventName f b w).1

/-- Go `Consumer.ListenSubscribeCompensate`. -/
def Consumer.ListenSubscribeCompensate (lib : Lib) (k : Consts) (c : Consumer σ)
    (f : Handler σ) (w : World σ) : Option GoError × Consumer σ × World σ :=
  let w1 := slog w "DEBUG" "subscribing to subscribe compensate event" none
  let r := c.consumer.Subscribe (handleWithEvent lib k k.compensateSubscribedEventType f) w1
  (none, { c with consumer := r.1 }, r.2)

/-- Go `Consumer.ListenUnsubscribeCompensate`. -/
def Consumer.ListenUnsubscribeCompensate (lib : Lib) (k : Consts) (c : Consumer σ)
    (f : Handler σ) (w : World σ) : Option GoError × Consumer σ × World σ :=
  let w1 := slog w "DEBUG" "subscribing to unsubscribe compensate event" none
  let r := c.consumer.Subscribe (handleWithEvent lib k k.compensateUnsubscribedEventType f) w1
  (none, { c with consumer := r.1 }, r.2)

/-- Go `Consumer.Close` of package `user`; `Except.error` is a panic:
`close(c.stopSignal)` panics when the channel is closed already. -/
def Consumer.Close (c : Consumer σ) (w : World σ) :
    Except String (Option GoError × Consumer σ × World σ) :=
  let w1 := slog w "DEBUG" "closing consumer" none
  if c.stopped then
    .error "close of closed channel"
  else
    let r := c.consumer.Close w1
    .ok (r.1, { c with stopped := true }, r.2)

end User

/-! ## `rate/fetchers/currency_beacon.go` -/

namespace Fetchers

/-- The page the supported currencies are read from. -/
def supportedCurrenciesURL : String := "https://currencybeacon.com/supported-currencies"

/-- Go `fmt.Sprintf(baseURL, apiKey, base, symbols)`. -/
def baseURL (apiKey base symbols : String) : String :=
  "https://api.currencybeacon.com/v1/latest?api_key=" ++ apiKey ++ "&base=" ++ base
    ++ "&symbols=" ++ symbols

/-- The method `FetchRate` of the interface `RateFetcher`, as `c.next` is
used: the state of the object behind the interface lives in the heap of the
world.  `Except.error` is a panic. -/
abbrev RateFetcher (σ : Type) :=
  Context → String → String → World σ → Except String ((Rate × Option GoError) × World σ)

/-- Go `type CurrencyBeaconFetcher struct`; a `nil` slice or interface is `none`. -/
structure CurrencyBeaconFetcher (σ : Type) where
  APIKey : String
  next : Option (RateFetcher σ)
  supportedCurrencies : Option (List String)

variable {σ : Type}

/-- Go `slices.Contains`. -/
def slicesContains (s : List String) (v : String) : Bool := s.contains v

/-- The loop `currencies = append(currencies, n.FirstChild.Data)` over the
selected nodes; a node without a first child makes the dereference panic. -/
def appendFirstChildData : List String → List (Option String) → Except String (List String)
  | currencies, [] => .ok currencies
  | _, none :: _ => .error "runtime error: invalid memory address or nil pointer dereference"
  | currencies, some data :: rest => appendFirstChildData (currencies ++ [data]) rest

/-- Go `CurrencyBeaconFetcher.SupportedCurrencies`; `Except.error` is a panic. -/
def CurrencyBeaconFetcher.SupportedCurrencies (lib : Lib) (c : CurrencyBeaconFetcher σ)
    (ctx : Context) (w : World σ) :
    Except String (Option (List String) × CurrencyBeaconFetcher σ × World σ) :=
  match c.supportedCurrencies with
  | some cached => .ok (some cached, c, w)
  | none =>
    match lib.newRequest supportedCurrenciesURL with
    | some err => .ok (none, c, slog w "ERROR" "creating request" (some err))
    | none =>
      let r := httpDo supportedCurrenciesURL ctx w
      match r.1 with
      | .error err => .ok (none, c, slog r.2 "INFO" "fetching supported currencies" (some err))
      | .ok response =>
        let w2 := slog r.2 "INFO" "fetching supported currencies" none
        match lib.htmlSelect response.Body with
        | .error err => .ok (none, c, slog w2 "ERROR" "parsing html" (some err))
        | .ok nodes =>
          match appendFirstChildData [] nodes with
          | .error p => .error p
          | .ok currencies =>
            .ok (some currencies, { c with supportedCurrencies := some currencies }, w2)

/-- Go `CurrencyBeaconFetcher.fetchRate`. -/
def CurrencyBeaconFetcher.fetchRate (lib : Lib) (c : CurrencyBeaconFetcher σ)
    (ctx : Context) (ccFrom ccTo : String) (w : World σ) : (Rate × Option GoError) × World σ :=
  let formattedURL := baseURL c.APIKey ccFrom ccTo
  match lib.newRequest formattedURL with
  | some err => ((emptyRate, some err), w)
  | none =>
    let r := httpDo formattedURL ctx w
    match r.1 with
    | .error err => ((emptyRate, some err), r.2)
    | .ok resp =>
      if resp.StatusCode ≠ 200 then
        ((emptyRate, some (GoError.errorf ("fetching url: " ++ resp.Status))), r.2)
      else
        match lib.decodeRates resp.Body with
        | .error err => ((emptyRate, some err), r.2)
        | .ok rates =>
          match rates ccTo with
          | none => ((emptyRate, some (GoError.errorf "rate not found")), r.2)
          | some value =>
            let t := timeNow r.2
            (({ CurrencyFrom := ccFrom, CurrencyTo := ccTo, Rate := value, Time := t.1 }, none),
              t.2)

/-- Go `CurrencyBeaconFetcher.FetchRate`; `Except.error` is a panic. -/
def CurrencyBeaconFetcher.FetchRate (lib : Lib) (c : CurrencyBeaconFetcher σ)
    (ctx : Context) (ccFrom ccTo : String) (w : World σ) :
    Except String ((Rate × Option GoError) × CurrencyBeaconFetcher σ × World σ) :=
  match c.SupportedCurrencies lib ctx w with
  | .error p => .error p
  | .ok (none, c1, w1) =>
    let err := GoError.errorf "failed to fetch supported currencies"
    .ok ((emptyRate, some err), c1, slog w1 "INFO" "fetching rate" (some err))
  | .ok (some supportedCurrencies, c1, w1) =>
    if !slicesContains supportedCurrencies ccFrom then
      .ok ((emptyRate, some (GoError.errorf ("unsupported currency: " ++ ccFrom))), c1, w1)
    else if !slicesContains supportedCurrencies ccTo then
      .ok ((emptyRate, some (GoError.errorf ("unsupported currency: " ++ ccTo))), c1, w1)
    else
      let r := c1.fetchRate lib ctx ccFrom ccTo w1
      let w2 := slog r.2 "INFO" "fetched rate" r.1.2
      match r.1.2 with
      | none => .ok ((r.1.1, none), c1, w2)
      | some err =>
        match c1.next with
        | some next =>
          match next ctx ccFrom ccTo w2 with
          | .error p => .error p
          | .ok r2 => .ok (r2.1, c1, r2.2)
        | none => .ok ((emptyRate, some err), c1, w2)

/-- Go `CurrencyBeaconFetcher.SetNext`. -/
def CurrencyBeaconFetcher.SetNext (c : CurrencyBeaconFetcher σ) (r : RateFetcher σ) :
    CurrencyBeaconFetcher σ :=
  { c with next := some r }

/-- Go `NewCurrencyBeaconFetcher`. -/
def NewCurrencyBeaconFetcher (apiKey : String) : CurrencyBeaconFetcher σ :=
  { APIKey := apiKey, next := none, supportedCurrencies := none }

end Fetchers

/-! ## `rate/fetcher.go` -/

namespace NBU

variable {σ : Type}

/-- Go `NBURateFetcher.SupportedCurrencies`. -/
def SupportedCurrencies : List String := ["UAH", "USD"]

/-- The verb `%02d` of `fmt.Sprintf` on a number that is not negative. -/
def pad2 (n : Nat) : String :=
  if n < 10 then "0" ++ toString n else toString n

/-- Go `NBURateFetcher.formatURL`. -/
def formatURL (cc : String) (date : Time) : String :=
  let currentDate := toString date.Year ++ pad2 date.Month ++ pad2 date.Day
  "https://bank.gov.ua/NBUStatService/v1/statdirectory/exchange?valcode=" ++ cc
    ++ "&date=" ++ currentDate ++ "&json"

/-- Go `http.Get(url)`: no request leaves when the URL is refused. -/
def httpGet (lib : Lib) (url : String) (w : World σ) : Except GoError Response × World σ :=
  match lib.newRequest url with
  | some err => (.error err, w)
  | none => httpDo url Context.Background w

/-- Go `NBURateFetcher.FetchRate`. -/
def FetchRate (lib : Lib) (ccFrom ccTo : String) (w : World σ) :
    (Rate × Option GoError) × World σ :=
  if ccTo ≠ "UAH" then
    ((emptyRate, some (GoError.errorf ("invalid currency from: " ++ ccFrom))), w)
  else
    let t := timeNow w
    let rate : Rate := { CurrencyFrom := ccFrom, CurrencyTo := ccTo, Rate := 0, Time := t.1 }
    if !Fetchers.slicesContains SupportedCurrencies ccFrom then
      ((rate, some (GoError.errorf ("unsupported currency: " ++ ccFrom))), t.2)
    else
      let t2 := timeNow t.2
      let r := httpGet lib (formatURL ccFrom t2.1) t2.2
      match r.1 with
      | .error err => ((rate, some err), r.2)
      | .ok resp =>
        match lib.decodeNBU resp.Body with
        | .error err => ((rate, some err), r.2)
        | .ok [] => ((rate, some (GoError.errorf "no rate data found")), r.2)
        | .ok (first :: _) => (({ rate with Rate := first }, none), r.2)

end NBU

/-! ## Sample inputs

Concrete libraries, worlds and callbacks on which the definitions above are
evaluated.  The heap of these worlds is a list of strings to which every
callback appends a line when it is called. -/

namespace Sample

/-- The bytes of an ASCII text. -/
def bytesOf (s : String) : List Nat := s.toList.map Char.toNat

/-- The event of the end-to-end scenario of the spec. -/
def subscribedBody : List Nat :=
  bytesOf "\x7b\"event\":\x7b\"type\":\"subscribed-compensate\"\x7d,\"data\":\x7b\"email\":\"a@x.com\"\x7d\x7d"

/-- An event of another kind. -/
def otherBody : List Nat :=
  bytesOf "\x7b\"event\":\x7b\"type\":\"other\"\x7d,\"data\":\x7b\"email\":\"a@x.com\"\x7d\x7d"

/-- A decoder that knows the two sample events and refuses everything else. -/
def unmarshalEvent (b : List Nat) : Except GoError subscribeEvent :=
  if b = subscribedBody then .ok ⟨⟨"subscribed-compensate"⟩, ⟨"a@x.com"⟩⟩
  else if b = otherBody then .ok ⟨⟨"other"⟩, ⟨"a@x.com"⟩⟩
  else .error (GoError.errorf "invalid character")

/-- A library whose provider payloads are named by their body text. -/
def lib : Lib where
  jsonUnmarshalEvent := unmarshalEvent
  newRequest := fun _ => none
  htmlSelect := fun body =>
    if body = "currencies" then .ok [some "USD", some "UAH"]
    else if body = "empty table" then .ok []
    else .error (GoError.errorf "unexpected EOF")
  decodeRates := fun body =>
    if body = "rates UAH 0" then .ok (fun cc => if cc = "UAH" then some 0 else none)
    else if body = "rates UAH 41.5" then .ok (fun cc => if cc = "UAH" then some (83 / 2) else none)
    else if body = "no rates" then .ok (fun _ => none)
    else .error (GoError.errorf "unexpected EOF")
  decodeNBU := fun body =>
    if body = "nbu 0" then .ok [0]
    else if body = "nbu 41.5" then .ok [83 / 2]
    else if body = "nbu empty" then .ok []
    else .error (GoError.errorf "unexpected EOF")

/-- Sample values of the constants of package `user`. -/
def consts : Consts := ⟨5, "subscribed-compensate", "unsubscribed-compensate"⟩

/-- A world whose network answers every request with `answer`. -/
def world (answer : Nat → String → Except GoError Response) : World (List String) where
  heap := []
  logs := []
  requests := []
  http := answer
  clockReads := 0
  clock := fun _ => ⟨2024, 7, 1, 0⟩

/-- A network that is down. -/
def offline : Nat → String → Except GoError Response :=
  fun _ _ => .error (GoError.errorf "dial tcp: connection refused")

/-- A callback result: the heap gets the line `line`, the call returns `err`. -/
def record (line : String) (err : Option GoError) (w : World (List String)) :
    Option GoError × World (List String) :=
  (err, { w with heap := w.heap ++ [line] })

/-- A handler that records the address it is called with and succeeds. -/
def handler : User.Handler (List String) :=
  fun _ email w => record ("handler " ++ email) none w

/-- Three listeners, the second of which fails. -/
def threeListeners : List (Transport.Listener (List String)) :=
  [fun _ w => record "first" none w,
   fun _ w => record "second" (some (GoError.errorf "boom")) w,
   fun _ w => record "third" none w]

/-- A consumer whose channel cannot be closed. -/
def brokenChannel : Transport.Consumer (List String) where
  QueueName := "user"
  conn := fun w => record "conn.Close" none w
  channel := fun w => record "channel.Close" (some (GoError.errorf "channel busy")) w
  listeners := []

/-- A consumer whose two resources close. -/
def healthy : Transport.Consumer (List String) where
  QueueName := "user"
  conn := fun w => record "conn.Close" none w
  channel := fun w => record "channel.Close" none w
  listeners := []

/-- A network that serves `body` with status 200 to every request. -/
def serving (body : String) : Nat → String → Except GoError Response :=
  fun _ _ => .ok ⟨200, "200 OK", body⟩

/-- A fetcher with no next link. -/
def fetcher (cache : Option (List String)) : Fetchers.CurrencyBeaconFetcher (List String) where
  APIKey := "key"
  next := none
  supportedCurrencies := cache

/-- A next link that records its call and answers 41.5. -/
def nextLink : Fetchers.RateFetcher (List String) :=
  fun _ ccFrom ccTo w =>
    .ok ((⟨ccFrom, ccTo, 83 / 2, Time.zero⟩, none), { w with heap := w.heap ++ ["next.FetchRate"] })

end Sample

/-! ## Theorems -/

section TransportTheorems
open Transport
variable {σ : Type}

/-- Subscribing appends the listeners in the order of registration. -/
theorem subscribeAll_listeners (fs : List (Listener σ)) (c : Consumer σ) (w : World σ) :
    (subscribeAll c fs w).1.listeners = c.listeners ++ fs := by
  induction fs generalizing c w with
  | nil => simp [subscribeAll]
  | cons f fs ih => simp [subscribeAll, ih, Consumer.Subscribe]

/-- The loop calls the listeners at positions `i`, `i + 1`, ... once each, with `body`. -/
theorem deliverLoop_calls (body : List Nat) (ls : List (Listener σ)) (i : Nat) (w : World σ) :
    (deliverLoop body i ls w).2.map (fun iv => (iv.listener, iv.arg))
      = (List.range ls.length).map (fun k => (i + k, body)) := by
  induction ls generalizing i w with
  | nil => simp [deliverLoop]
  | cons l ls ih =>
    simp only [deliverLoop, List.map_cons, List.length_cons, List.range_succ_eq_map,
      List.map_map, ih]
    simp [Function.comp_def, Nat.add_assoc, Nat.add_comm 1]

/-- The loop applies the body of the loop to every listener in turn. -/
theorem deliverLoop_world (body : List Nat) (ls : List (Listener σ)) (i : Nat) (w : World σ) :
    (deliverLoop body i ls w).1 = ls.foldl (fun v l => deliverStep body l v) w := by
  induction ls generalizing i w with
  | nil => simp [deliverLoop]
  | cons l ls ih => simp [deliverLoop, ih]

/-- The three listeners of the delivery-isolation scenario: the second one
fails, all three are called once, in order, and one error is logged. -/
theorem deliverMessage_isolation_example :
    ((subscribeAll Sample.healthy Sample.threeListeners (Sample.world Sample.offline)).1.deliverMessage
        ⟨[7]⟩ (Sample.world Sample.offline)).heap = ["first", "second", "third"] ∧
    ((subscribeAll Sample.healthy Sample.threeListeners (Sample.world Sample.offline)).1.deliverMessage
        ⟨[7]⟩ (Sample.world Sample.offline)).logs
      = [⟨"ERROR", "error delivering message", some (GoError.errorf "boom")⟩] := by
  constructor <;> rfl

/-- The loop makes one call for every listener. -/
theorem deliverLoop_length (body : List Nat) (ls : List (Listener σ)) (i : Nat) (w : World σ) :
    (deliverLoop body i ls w).2.length = ls.length := by
  induction ls generalizing i w with
  | nil => simp [deliverLoop]
  | cons l ls ih => simp [deliverLoop, ih]

/-- The `k`-th call of the loop is the call of the `k`-th listener with `body`,
in the world the listeners before it left, and records what that call
returned. -/
theorem deliverLoop_trace (body : List Nat) (ls : List (Listener σ)) (i : Nat) (w : World σ)
    (k : Nat) (hk : k < ls.length) :
    (deliverLoop body i ls w).2[k]?
      = some ⟨i + k, body,
          (ls[k] body ((ls.take k).foldl (fun v l => deliverStep body l v) w)).1⟩ := by
  induction ls generalizing i w k with
  | nil => simp at hk
  | cons l ls ih =>
    cases k with
    | zero => simp [deliverLoop]
    | succ k =>
      have hk2 : k < ls.length := by simpa using hk
      simp only [deliverLoop, List.getElem?_cons_succ, List.take_succ_cons, List.foldl_cons,
        List.getElem_cons_succ]
      rw [ih (i + 1) (deliverStep body l w) k hk2]
      simp [Nat.add_assoc, Nat.add_comm 1]

/-- C1: listeners registered with `Subscribe` are kept in registration order,
and for every consumer and message `deliverMessage` applies every listener of
`c.listeners` to the body of the message exactly once, in order: the world it
leaves is the one obtained by running the listeners one after the other on
`msg.Body`, an error being logged before the next listener runs; it makes as
many calls as there are listeners, and its `k`-th call is the `k`-th listener
applied to `msg.Body` in the world the listeners before it left, whatever
these returned. -/
theorem C1_deliverMessage_calls_every_listener_once (c0 : Consumer σ)
    (fs : List (Listener σ)) (msg : Delivery) (w0 w : World σ) :
    (subscribeAll c0 fs w0).1.listeners = c0.listeners ++ fs ∧
    ∀ c : Consumer σ,
      c.deliverMessage msg w
        = c.listeners.foldl
            (fun v listener =>
              match (listener msg.Body v).1 with
              | some err =>
                slog (listener msg.Body v).2 "ERROR" "error delivering message" (some err)
              | none => (listener msg.Body v).2) w ∧
      (c.deliverMessageTraced msg w).2.length = c.listeners.length ∧
      ∀ (k : Nat) (hk : k < c.listeners.length),
        (c.deliverMessageTraced msg w).2[k]?
          = some ⟨k, msg.Body,
              (c.listeners[k] msg.Body
                ((c.listeners.take k).foldl
                  (fun v listener =>
                    match (listener msg.Body v).1 with
                    | some err =>
                      slog (listener msg.Body v).2 "ERROR" "error delivering message" (some err)
                    | none => (listener msg.Body v).2) w)).1⟩ := by
  refine ⟨subscribeAll_listeners fs c0 w0, fun c => ⟨?_, ?_, ?_⟩⟩
  · exact deliverLoop_world msg.Body c.listeners 0 w
  · exact deliverLoop_length msg.Body c.listeners 0 w
  · intro k hk
    have h := deliverLoop_trace msg.Body c.listeners 0 w k hk
    simpa [Consumer.deliverMessageTraced, deliverStep] using h

/-- The result of `Close` in terms of the two closing calls: the error of the
channel wrapped with "closing channel" if the channel fails, else the error of
the connection wrapped with "closing connection", else nil. -/
theorem Close_result (c : Consumer σ) (w : World σ) :
    (c.Close w).1
      = match (c.channel (slog w "INFO" "closing consumer" none)).1 with
        | some err => some (GoError.wrap "closing channel" err)
        | none =>
          match (c.conn (c.channel (slog w "INFO" "closing consumer" none)).2).1 with
          | some err => some (GoError.wrap "closing connection" err)
          | none => none := by
  unfold Consumer.Close Consumer.CloseTraced
  rcases hch : c.channel (slog w "INFO" "closing consumer" none) with ⟨e1, w2⟩
  cases e1 with
  | some err => simp [logAndWrap, hch]
  | none =>
    rcases hco : c.conn w2 with ⟨e2, w3⟩
    cases e2 with
    | some err => simp [logAndWrap, hch, hco]
    | none => simp [hch, hco]

/-- The connection is closed by `Close` exactly when closing the channel
succeeded. -/
theorem Close_calls (c : Consumer σ) (w : World σ) :
    (c.CloseTraced w).2
      = if (c.channel (slog w "INFO" "closing consumer" none)).1 = none
        then ["channel", "connection"] else ["channel"] := by
  unfold Consumer.CloseTraced
  rcases hch : c.channel (slog w "INFO" "closing consumer" none) with ⟨e1, w2⟩
  cases e1 with
  | some err => simp [hch]
  | none =>
    rcases hco : c.conn w2 with ⟨e2, w3⟩
    cases e2 with
    | some err => simp [hch, hco]
    | none => simp [hch, hco]

/-- C7 (evaluation): when closing the channel fails, `Close` returns that error
wrapped with "closing channel" and never calls `conn.Close()`. -/
theorem C7_Close_skips_connection_when_channel_fails :
    (Sample.brokenChannel.Close (Sample.world Sample.offline)).1
      = some (GoError.wrap "closing channel" (GoError.errorf "channel busy")) ∧
    (Sample.brokenChannel.Close (Sample.world Sample.offline)).2.heap = ["channel.Close"] ∧
    (Sample.brokenChannel.CloseTraced (Sample.world Sample.offline)).2 = ["channel"] := by
  refine ⟨rfl, rfl, rfl⟩

end TransportTheorems

section UserTheorems
open User
variable {σ : Type}

/-- C2: when the body decodes to an event whose type is the registered name,
the listener built by `handleWithEvent` calls the handler exactly once, with
the e-mail of the event's data, and returns what that call returns. -/
theorem C2_handleWithEvent_matching_kind (lib : Lib) (k : Consts) (eventName : String)
    (f : Handler σ) (b : List Nat) (event : subscribeEvent) (w : World σ)
    (hdecode : lib.jsonUnmarshalEvent b = .ok event)
    (hkind : event.Event.Type_ = eventName) :
    (handleWithEventTraced lib k eventName f b w).2 = [event.Data.Email] ∧
    handleWithEvent lib k eventName f b w
      = f (Context.WithTimeout Context.Background k.subTimeout) event.Data.Email
          (slog (slog w "DEBUG" "received message" none) "INFO" "delivering message" none) := by
  simp [handleWithEvent, handleWithEventTraced, unmarshal, hdecode, hkind]

/-- C2 (witness): the event of the end-to-end scenario, delivered to a handler of its kind. -/
theorem C2_handleWithEvent_matching_kind_witness :
    Sample.lib.jsonUnmarshalEvent Sample.subscribedBody
        = .ok ⟨⟨"subscribed-compensate"⟩, ⟨"a@x.com"⟩⟩ ∧
    (handleWithEventTraced Sample.lib Sample.consts "subscribed-compensate" Sample.handler
        Sample.subscribedBody (Sample.world Sample.offline)).2 = ["a@x.com"] ∧
    handleWithEvent Sample.lib Sample.consts "subscribed-compensate" Sample.handler
        Sample.subscribedBody (Sample.world Sample.offline)
      = Sample.handler (Context.WithTimeout Context.Background Sample.consts.subTimeout) "a@x.com"
          (slog (slog (Sample.world Sample.offline) "DEBUG" "received message" none)
            "INFO" "delivering message" none) :=
  ⟨by rfl,
    C2_handleWithEvent_matching_kind Sample.lib Sample.consts "subscribed-compensate"
      Sample.handler Sample.subscribedBody ⟨⟨"subscribed-compensate"⟩, ⟨"a@x.com"⟩⟩
      (Sample.world Sample.offline) (by rfl) rfl⟩

/-- C3: when the body decodes to an event of another type, the listener built
by `handleWithEvent` returns nil and does not call the handler; it only logs
that a message was received. -/
theorem C3_handleWithEvent_other_kind (lib : Lib) (k : Consts) (eventName : String)
    (f : Handler σ) (b : List Nat) (event : subscribeEvent) (w : World σ)
    (hdecode : lib.jsonUnmarshalEvent b = .ok event)
    (hkind : event.Event.Type_ ≠ eventName) :
    (handleWithEventTraced lib k eventName f b w).2 = [] ∧
    handleWithEvent lib k eventName f b w = (none, slog w "DEBUG" "received message" none) := by
  simp [handleWithEvent, handleWithEventTraced, unmarshal, hdecode, hkind]

/-- C3 (witness): an event of kind "other", delivered to a handler of another kind. -/
theorem C3_handleWithEvent_other_kind_witness :
    (handleWithEventTraced Sample.lib Sample.consts "subscribed-compensate" Sample.handler
        Sample.otherBody (Sample.world Sample.offline)).2 = [] ∧
    handleWithEvent Sample.lib Sample.consts "subscribed-compensate" Sample.handler
        Sample.otherBody (Sample.world Sample.offline)
      = (none, slog (Sample.world Sample.offline) "DEBUG" "received message" none) :=
  C3_handleWithEvent_other_kind Sample.lib Sample.consts "subscribed-compensate"
    Sample.handler Sample.otherBody ⟨⟨"other"⟩, ⟨"a@x.com"⟩⟩
    (Sample.world Sample.offline) (by rfl) (by decide)

/-- C4: when the body cannot be decoded, the listener built by
`handleWithEvent` returns the decode error wrapped with "unmarshalling event",
does not call the handler, and leaves the heap (all subscription state) as it
was: the only effect is the log line of the reception. -/
theorem C4_handleWithEvent_malformed (lib : Lib) (k : Consts) (eventName : String)
    (f : Handler σ) (b : List Nat) (err : GoError) (w : World σ)
    (hdecode : lib.jsonUnmarshalEvent b = .error err) :
    (handleWithEventTraced lib k eventName f b w).2 = [] ∧
    handleWithEvent lib k eventName f b w
      = (some (GoError.wrap "unmarshalling event" err),
          slog w "DEBUG" "received message" none) ∧
    (handleWithEvent lib k eventName f b w).2.heap = w.heap := by
  simp [handleWithEvent, handleWithEventTraced, unmarshal, hdecode, slog]

/-- C4 (witness): a body the sample decoder refuses. -/
theorem C4_handleWithEvent_malformed_witness :
    (handleWithEventTraced Sample.lib Sample.consts "subscribed-compensate" Sample.handler
        [123] (Sample.world Sample.offline)).2 = [] ∧
    handleWithEvent Sample.lib Sample.consts "subscribed-compensate" Sample.handler
        [123] (Sample.world Sample.offline)
      = (some (GoError.wrap "unmarshalling event" (GoError.errorf "invalid character")),
          slog (Sample.world Sample.offline) "DEBUG" "received message" none) ∧
    (handleWithEvent Sample.lib Sample.consts "subscribed-compensate" Sample.handler
        [123] (Sample.world Sample.offline)).2.heap = (Sample.world Sample.offline).heap :=
  C4_handleWithEvent_malformed Sample.lib Sample.consts "subscribed-compensate"
    Sample.handler [123] (GoError.errorf "invalid character")
    (Sample.world Sample.offline) (by rfl)

/-- Registration through `ListenSubscribeCompensate` and
`ListenUnsubscribeCompensate` returns nil and appends the listener that
`handleWithEvent` builds for the event type of the kind. -/
theorem Listen_registers_handleWithEvent (lib : Lib) (k : Consts) (c : Consumer σ)
    (f : Handler σ) (w : World σ) :
    (c.ListenSubscribeCompensate lib k f w).1 = none ∧
    (c.ListenSubscribeCompensate lib k f w).2.1.consumer.listeners
      = c.consumer.listeners ++ [handleWithEvent lib k k.compensateSubscribedEventType f] ∧
    (c.ListenUnsubscribeCompensate lib k f w).1 = none ∧
    (c.ListenUnsubscribeCompensate lib k f w).2.1.consumer.listeners
      = c.consumer.listeners ++ [handleWithEvent lib k k.compensateUnsubscribedEventType f] :=
  ⟨rfl, rfl, rfl, rfl⟩

end UserTheorems

section FetcherTheorems
open Fetchers
variable {σ : Type}

/-- The function `slicesContains` decides membership. -/
theorem slicesContains_iff (s : List String) (v : String) :
    slicesContains s v = true ↔ v ∈ s := by
  simp [slicesContains]

/-- What `SupportedCurrencies` leaves behind: on a list the fetcher caches it,
on `nil` the fetcher is unchanged; at most one request leaves, for the page of
supported currencies. -/
theorem SupportedCurrencies_result (lib : Lib) (c : CurrencyBeaconFetcher σ) (ctx : Context)
    (w : World σ) (res : Option (List String)) (c1 : CurrencyBeaconFetcher σ) (w1 : World σ)
    (h : c.SupportedCurrencies lib ctx w = .ok (res, c1, w1)) :
    c1 = { c with supportedCurrencies := res } ∧ w1.heap = w.heap ∧
    (w1.requests = w.requests ∨ w1.requests = w.requests ++ [supportedCurrenciesURL]) := by
  unfold CurrencyBeaconFetcher.SupportedCurrencies at h
  split at h
  · rename_i cached hc
    simp only [Except.ok.injEq, Prod.mk.injEq] at h
    obtain ⟨h1, h2, h3⟩ := h
    subst h1 h2 h3
    refine ⟨?_, rfl, Or.inl rfl⟩
    cases c
    simp_all
  · rename_i hc
    split at h
    · simp only [Except.ok.injEq, Prod.mk.injEq] at h
      obtain ⟨h1, h2, h3⟩ := h
      subst h1 h2 h3
      refine ⟨?_, rfl, Or.inl rfl⟩
      cases c
      simp_all
    · simp only at h
      split at h
      · simp only [Except.ok.injEq, Prod.mk.injEq] at h
        obtain ⟨h1, h2, h3⟩ := h
        subst h1 h2 h3
        refine ⟨?_, rfl, Or.inr rfl⟩
        cases c
        simp_all
      · split at h
        · simp only [Except.ok.injEq, Prod.mk.injEq] at h
          obtain ⟨h1, h2, h3⟩ := h
          subst h1 h2 h3
          refine ⟨?_, rfl, Or.inr rfl⟩
          cases c
          simp_all
        · split at h
          · cases h
          · simp only [Except.ok.injEq, Prod.mk.injEq] at h
            obtain ⟨h1, h2, h3⟩ := h
            subst h1 h2 h3
            exact ⟨rfl, rfl, Or.inr rfl⟩

/-- C5: when the list of supported currencies is resolved and one side of the
pair is not in it, `FetchRate` returns the empty `Rate` with the error
"unsupported currency: " followed by a code that is not in the list (`ccFrom`
if it is unsupported, else `ccTo`); fetcher and world are those left by the
resolution, whatever the next link is: no rate request leaves and the next
link is not called. -/
theorem C5_FetchRate_unsupported_currency (lib : Lib) (c : CurrencyBeaconFetcher σ)
    (ctx : Context) (ccFrom ccTo : String) (w : World σ) (supported : List String)
    (c1 : CurrencyBeaconFetcher σ) (w1 : World σ)
    (hresolved : c.SupportedCurrencies lib ctx w = .ok (some supported, c1, w1))
    (hunsupported : ccFrom ∉ supported ∨ ccTo ∉ supported) :
    (if ccFrom ∈ supported then ccTo else ccFrom) ∉ supported ∧
    c.FetchRate lib ctx ccFrom ccTo w
      = .ok ((emptyRate, some (GoError.errorf
          ("unsupported currency: " ++ (if ccFrom ∈ supported then ccTo else ccFrom)))),
          c1, w1) ∧
    (w1.requests = w.requests ∨ w1.requests = w.requests ++ [supportedCurrenciesURL]) := by
  have hreq := (SupportedCurrencies_result lib c ctx w _ c1 w1 hresolved).2.2
  by_cases hfrom : ccFrom ∈ supported
  · have hto : ccTo ∉ supported := by
      rcases hunsupported with h | h
      · exact absurd hfrom h
      · exact h
    refine ⟨by simpa [hfrom] using hto, ?_, hreq⟩
    simp [CurrencyBeaconFetcher.FetchRate, hresolved, slicesContains, hfrom, hto]
  · refine ⟨by simp [hfrom], ?_, hreq⟩
    simp [CurrencyBeaconFetcher.FetchRate, hresolved, slicesContains, hfrom]

/-- C5 (witness): a quote currency outside the cached list, with a next link set. -/
theorem C5_FetchRate_unsupported_currency_witness :
    ((Sample.fetcher (some ["USD", "UAH"])).SetNext Sample.nextLink).FetchRate Sample.lib
        Context.Background "USD" "PLN" (Sample.world (Sample.serving "rates UAH 41.5"))
      = .ok ((emptyRate, some (GoError.errorf "unsupported currency: PLN")),
          (Sample.fetcher (some ["USD", "UAH"])).SetNext Sample.nextLink,
          Sample.world (Sample.serving "rates UAH 41.5")) :=
  (C5_FetchRate_unsupported_currency Sample.lib
    ((Sample.fetcher (some ["USD", "UAH"])).SetNext Sample.nextLink) Context.Background
    "USD" "PLN" (Sample.world (Sample.serving "rates UAH 41.5")) ["USD", "UAH"]
    ((Sample.fetcher (some ["USD", "UAH"])).SetNext Sample.nextLink)
    (Sample.world (Sample.serving "rates UAH 41.5")) rfl (Or.inr (by decide))).2.1

/-- C6: when the pair is supported and the fetcher's own rate request fails
with `err`, `FetchRate` returns exactly what the next link's `FetchRate`
returns for the same pair (run in the world the failed attempt left) if a next
link is set, and the empty `Rate` with `err` itself if none is set. -/
theorem C6_FetchRate_falls_back_to_next (lib : Lib) (c : CurrencyBeaconFetcher σ)
    (ctx : Context) (ccFrom ccTo : String) (w : World σ) (supported : List String)
    (c1 : CurrencyBeaconFetcher σ) (w1 : World σ) (err : GoError)
    (hresolved : c.SupportedCurrencies lib ctx w = .ok (some supported, c1, w1))
    (hfrom : ccFrom ∈ supported) (hto : ccTo ∈ supported)
    (hfail : (c1.fetchRate lib ctx ccFrom ccTo w1).1.2 = some err) :
    c.FetchRate lib ctx ccFrom ccTo w
      = match c.next with
        | some next =>
          (next ctx ccFrom ccTo
            (slog (c1.fetchRate lib ctx ccFrom ccTo w1).2 "INFO" "fetched rate" (some err))).map
            (fun r => (r.1, c1, r.2))
        | none =>
          .ok ((emptyRate, some err), c1,
            slog (c1.fetchRate lib ctx ccFrom ccTo w1).2 "INFO" "fetched rate" (some err)) := by
  have hc1 := (SupportedCurrencies_result lib c ctx w _ c1 w1 hresolved).1
  have hnext : c1.next = c.next := by rw [hc1]
  cases hn : c.next with
  | none =>
    simp [CurrencyBeaconFetcher.FetchRate, hresolved, slicesContains, hfail, hnext, hn,
      hfrom, hto]
  | some next =>
    cases hr : next ctx ccFrom ccTo
        (slog (c1.fetchRate lib ctx ccFrom ccTo w1).2 "INFO" "fetched rate" (some err)) with
    | error p =>
      simp [CurrencyBeaconFetcher.FetchRate, hresolved, slicesContains, hfail, hnext, hn,
        hfrom, hto, hr, Except.map]
    | ok r =>
      simp [CurrencyBeaconFetcher.FetchRate, hresolved, slicesContains, hfail, hnext, hn,
        hfrom, hto, hr, Except.map]

/-- C6 (witness): the network is down and the next link answers. -/
theorem C6_FetchRate_falls_back_to_next_witness :
    (((Sample.fetcher (some ["USD", "UAH"])).SetNext Sample.nextLink).FetchRate Sample.lib
        Context.Background "USD" "UAH" (Sample.world Sample.offline)).map
        (fun r => (r.1, r.2.2.heap))
      = .ok ((⟨"USD", "UAH", 83 / 2, Time.zero⟩, none), ["next.FetchRate"]) := by
  rw [C6_FetchRate_falls_back_to_next Sample.lib
    ((Sample.fetcher (some ["USD", "UAH"])).SetNext Sample.nextLink) Context.Background
    "USD" "UAH" (Sample.world Sample.offline) ["USD", "UAH"]
    ((Sample.fetcher (some ["USD", "UAH"])).SetNext Sample.nextLink)
    (Sample.world Sample.offline) (GoError.errorf "dial tcp: connection refused")
    rfl (by decide) (by decide) rfl]
  rfl

/-- C8 (evaluation): a payload whose rate for the quote currency decodes to 0
gives a successful result (nil error) whose value is 0, not greater than 0,
from the own fetch of `CurrencyBeaconFetcher` and from `NBURateFetcher` alike. -/
theorem C8_zero_rate_returned_as_success :
    (((Sample.fetcher none).fetchRate Sample.lib Context.Background "USD" "UAH"
        (Sample.world (Sample.serving "rates UAH 0"))).1.2 = none ∧
      ¬ 0 < ((Sample.fetcher none).fetchRate Sample.lib Context.Background "USD" "UAH"
        (Sample.world (Sample.serving "rates UAH 0"))).1.1.Rate) ∧
    ((NBU.FetchRate Sample.lib "USD" "UAH" (Sample.world (Sample.serving "nbu 0"))).1.2 = none ∧
      ¬ 0 < (NBU.FetchRate Sample.lib "USD" "UAH"
        (Sample.world (Sample.serving "nbu 0"))).1.1.Rate) := by
  have h1 : ((Sample.fetcher none).fetchRate Sample.lib Context.Background "USD" "UAH"
      (Sample.world (Sample.serving "rates UAH 0"))).1 = (⟨"USD", "UAH", 0, ⟨2024, 7, 1, 0⟩⟩, none) :=
    rfl
  have h2 : (NBU.FetchRate Sample.lib "USD" "UAH" (Sample.world (Sample.serving "nbu 0"))).1
      = (⟨"USD", "UAH", 0, ⟨2024, 7, 1, 0⟩⟩, none) := rfl
  rw [h1, h2]
  simp

/-- What a successful fetch returns: the own fetch of `CurrencyBeaconFetcher`
and `NBURateFetcher.FetchRate` return a `Rate` with the currency codes of the
call whose value is the one the decoded payload carries: the entry of `ccTo`
in `rates` of a 200 response, resp. the rate of the first element of the
array.  A payload without that entry, or an empty array, gives no successful
result; the value itself is never compared with 0. -/
theorem fetch_success_returns_payload_rate (lib : Lib) (c : CurrencyBeaconFetcher σ)
    (ctx : Context) (ccFrom ccTo : String) (w : World σ) :
    ((c.fetchRate lib ctx ccFrom ccTo w).1.2 = none →
      (c.fetchRate lib ctx ccFrom ccTo w).1.1.CurrencyFrom = ccFrom ∧
      (c.fetchRate lib ctx ccFrom ccTo w).1.1.CurrencyTo = ccTo ∧
      ∃ resp rates,
        w.http w.requests.length (baseURL c.APIKey ccFrom ccTo) = .ok resp ∧
        resp.StatusCode = 200 ∧ lib.decodeRates resp.Body = .ok rates ∧
        rates ccTo = some (c.fetchRate lib ctx ccFrom ccTo w).1.1.Rate) ∧
    ((NBU.FetchRate lib ccFrom ccTo w).1.2 = none →
      (NBU.FetchRate lib ccFrom ccTo w).1.1.CurrencyFrom = ccFrom ∧
      (NBU.FetchRate lib ccFrom ccTo w).1.1.CurrencyTo = ccTo ∧
      ∃ resp rest,
        w.http w.requests.length (NBU.formatURL ccFrom (w.clock (w.clockReads + 1))) = .ok resp ∧
        lib.decodeNBU resp.Body = .ok ((NBU.FetchRate lib ccFrom ccTo w).1.1.Rate :: rest)) := by
  constructor
  · unfold CurrencyBeaconFetcher.fetchRate
    simp only [httpDo]
    cases lib.newRequest (baseURL c.APIKey ccFrom ccTo) with
    | some e => simp
    | none =>
      cases hhttp : w.http w.requests.length (baseURL c.APIKey ccFrom ccTo) with
      | error e => simp
      | ok resp =>
        by_cases hst : resp.StatusCode = 200
        · cases hdec : lib.decodeRates resp.Body with
          | error e => simp [hst, hdec]
          | ok rates =>
            cases hrate : rates ccTo with
            | none => simp [hst, hdec, hrate]
            | some value => simp [hst, hdec, hrate]
        · simp [hst]
  · unfold NBU.FetchRate
    by_cases hto : ccTo = "UAH"
    · by_cases hsup : slicesContains NBU.SupportedCurrencies ccFrom = true
      · simp only [NBU.httpGet, httpDo, timeNow]
        cases lib.newRequest (NBU.formatURL ccFrom (w.clock (w.clockReads + 1))) with
        | some e => simp [hto, hsup]
        | none =>
          cases hhttp : w.http w.requests.length
              (NBU.formatURL ccFrom (w.clock (w.clockReads + 1))) with
          | error e => simp [hto, hsup, hhttp]
          | ok resp =>
            cases hdec : lib.decodeNBU resp.Body with
            | error e => simp [hto, hsup, hhttp, hdec]
            | ok data =>
              cases data with
              | nil => simp [hto, hsup, hhttp, hdec]
              | cons first rest => simp [hto, hsup, hhttp, hdec]
      · simp [hto, hsup]
    · simp [hto]

/-- Both fetchers on a payload with the rate 41.5 return the codes of the call. -/
theorem fetch_success_returns_payload_rate_example :
    (((Sample.fetcher none).fetchRate Sample.lib Context.Background "USD" "UAH"
        (Sample.world (Sample.serving "rates UAH 41.5"))).1.1.CurrencyFrom = "USD" ∧
      ((Sample.fetcher none).fetchRate Sample.lib Context.Background "USD" "UAH"
        (Sample.world (Sample.serving "rates UAH 41.5"))).1.1.CurrencyTo = "UAH") ∧
    ((NBU.FetchRate Sample.lib "USD" "UAH"
        (Sample.world (Sample.serving "nbu 41.5"))).1.1.CurrencyFrom = "USD" ∧
      (NBU.FetchRate Sample.lib "USD" "UAH"
        (Sample.world (Sample.serving "nbu 41.5"))).1.1.CurrencyTo = "UAH") :=
  ⟨⟨((fetch_success_returns_payload_rate Sample.lib (Sample.fetcher none)
        Context.Background "USD" "UAH" (Sample.world (Sample.serving "rates UAH 41.5"))).1 rfl).1,
      ((fetch_success_returns_payload_rate Sample.lib (Sample.fetcher none)
        Context.Background "USD" "UAH" (Sample.world (Sample.serving "rates UAH 41.5"))).1 rfl).2.1⟩,
    ⟨((fetch_success_returns_payload_rate Sample.lib (Sample.fetcher none)
        Context.Background "USD" "UAH" (Sample.world (Sample.serving "nbu 41.5"))).2 rfl).1,
      ((fetch_success_returns_payload_rate Sample.lib (Sample.fetcher none)
        Context.Background "USD" "UAH" (Sample.world (Sample.serving "nbu 41.5"))).2 rfl).2.1⟩⟩

/-- C10: once `SupportedCurrencies` has returned a list (the empty list
included), the fetcher holds it, and every later call on that fetcher returns
the same list and leaves fetcher and world as they were: no request leaves and
the cached list stays. -/
theorem C10_SupportedCurrencies_is_cached (lib : Lib) (c : CurrencyBeaconFetcher σ)
    (ctx : Context) (w : World σ) (supported : List String)
    (c1 : CurrencyBeaconFetcher σ) (w1 : World σ)
    (hresolved : c.SupportedCurrencies lib ctx w = .ok (some supported, c1, w1))
    (ctx2 : Context) (w2 : World σ) :
    c1.supportedCurrencies = some supported ∧
    c1.SupportedCurrencies lib ctx2 w2 = .ok (some supported, c1, w2) := by
  have hres := SupportedCurrencies_result lib c ctx w _ c1 w1 hresolved
  have hc : c1.supportedCurrencies = some supported := by rw [hres.1]
  exact ⟨hc, by simp [CurrencyBeaconFetcher.SupportedCurrencies, hc]⟩

/-- C10 (witness): a page with an empty table resolves to the empty list, which is then served from the fetcher. -/
theorem C10_SupportedCurrencies_is_cached_witness :
    (Sample.fetcher none).SupportedCurrencies Sample.lib Context.Background
        (Sample.world (Sample.serving "empty table"))
      = .ok (some [], Sample.fetcher (some []),
          slog (httpDo supportedCurrenciesURL Context.Background
            (Sample.world (Sample.serving "empty table"))).2
            "INFO" "fetching supported currencies" none) ∧
    (Sample.fetcher (some [])).SupportedCurrencies Sample.lib Context.Background
        (Sample.world Sample.offline)
      = .ok (some [], Sample.fetcher (some []), Sample.world Sample.offline) :=
  ⟨rfl,
    (C10_SupportedCurrencies_is_cached Sample.lib (Sample.fetcher none) Context.Background
      (Sample.world (Sample.serving "empty table")) [] (Sample.fetcher (some []))
      (slog (httpDo supportedCurrenciesURL Context.Background
        (Sample.world (Sample.serving "empty table"))).2
        "INFO" "fetching supported currencies" none) rfl
      Context.Background (Sample.world Sample.offline)).2⟩

end FetcherTheorems

section NBUTheorems
variable {σ : Type}

/-- C11: `NBURateFetcher.FetchRate` returns an error and leaves the list of
issued requests as it was whenever `ccTo` is not "UAH" or `ccFrom` is not in
`SupportedCurrencies()`; and when both guards pass, the request is accepted
and answered, and the payload decodes to the empty array, it issues that one
request and returns the error "no rate data found", not a successful rate. -/
theorem C11_NBU_FetchRate_guards (lib : Lib) (ccFrom ccTo : String) (w : World σ) :
    ((ccTo ≠ "UAH" ∨ ccFrom ∉ NBU.SupportedCurrencies) →
      (NBU.FetchRate lib ccFrom ccTo w).1.2
        = some (GoError.errorf
            (if ccTo ≠ "UAH" then "invalid currency from: " ++ ccFrom
              else "unsupported currency: " ++ ccFrom)) ∧
      (NBU.FetchRate lib ccFrom ccTo w).2.requests = w.requests) ∧
    (∀ resp : Response,
      ccTo = "UAH" → ccFrom ∈ NBU.SupportedCurrencies →
      lib.newRequest (NBU.formatURL ccFrom (w.clock (w.clockReads + 1))) = none →
      w.http w.requests.length (NBU.formatURL ccFrom (w.clock (w.clockReads + 1))) = .ok resp →
      lib.decodeNBU resp.Body = .ok [] →
      (NBU.FetchRate lib ccFrom ccTo w).1.2 = some (GoError.errorf "no rate data found") ∧
      (NBU.FetchRate lib ccFrom ccTo w).2.requests
        = w.requests ++ [NBU.formatURL ccFrom (w.clock (w.clockReads + 1))]) := by
  constructor
  · intro h
    by_cases hto : ccTo = "UAH"
    · have hfrom : ccFrom ∉ NBU.SupportedCurrencies := by
        rcases h with h | h
        · exact absurd hto h
        · exact h
      have hc : Fetchers.slicesContains NBU.SupportedCurrencies ccFrom = false := by
        cases hb : Fetchers.slicesContains NBU.SupportedCurrencies ccFrom with
        | false => rfl
        | true => exact absurd ((slicesContains_iff _ _).1 hb) hfrom
      simp [NBU.FetchRate, hto, hc, timeNow]
    · simp [NBU.FetchRate, hto]
  · intro resp hto hfrom hreq hhttp hdec
    have hc : Fetchers.slicesContains NBU.SupportedCurrencies ccFrom = true :=
      (slicesContains_iff _ _).2 hfrom
    simp [NBU.FetchRate, hto, hc, timeNow, NBU.httpGet, httpDo, hreq, hhttp, hdec]

/-- C11 (witness): a quote currency other than "UAH", and a provider that
answers with the empty array. -/
theorem C11_NBU_FetchRate_guards_witness :
    ((NBU.FetchRate Sample.lib "USD" "EUR" (Sample.world (Sample.serving "nbu 41.5"))).1.2
        = some (GoError.errorf "invalid currency from: USD") ∧
      (NBU.FetchRate Sample.lib "USD" "EUR"
        (Sample.world (Sample.serving "nbu 41.5"))).2.requests = []) ∧
    ((NBU.FetchRate Sample.lib "USD" "UAH" (Sample.world (Sample.serving "nbu empty"))).1.2
        = some (GoError.errorf "no rate data found") ∧
      (NBU.FetchRate Sample.lib "USD" "UAH"
        (Sample.world (Sample.serving "nbu empty"))).2.requests
        = [NBU.formatURL "USD" ⟨2024, 7, 1, 0⟩]) :=
  ⟨(C11_NBU_FetchRate_guards Sample.lib "USD" "EUR"
      (Sample.world (Sample.serving "nbu 41.5"))).1 (Or.inl (by decide)),
    (C11_NBU_FetchRate_guards Sample.lib "USD" "UAH"
      (Sample.world (Sample.serving "nbu empty"))).2 ⟨200, "200 OK", "nbu empty"⟩
      rfl (by decide) rfl rfl rfl⟩

/-- A base currency outside `SupportedCurrencies()`: the call fails with
"unsupported currency: EUR" and no request leaves. -/
theorem NBU_FetchRate_unsupported_example :
    (NBU.FetchRate Sample.lib "EUR" "UAH" (Sample.world (Sample.serving "nbu 41.5"))).1.2
      = some (GoError.errorf "unsupported currency: EUR") ∧
    (NBU.FetchRate Sample.lib "EUR" "UAH"
      (Sample.world (Sample.serving "nbu 41.5"))).2.requests = [] :=
  ⟨rfl, rfl⟩

end NBUTheorems

end GenesisKMA
